import Mathlib

/-!
Verification of the retrieval-and-orchestration pipeline of a single-document
RAG system.  The Python sources are shallowly embedded: Python `str` is
modelled as Lean `String` (converted to `List Char` for the character-level
operations, with structurally recursive re-implementations of the Python
string primitives `lower`, `strip`, `split`, `count` and substring tests so
that every definition is executable); floats are modelled as `ℚ` except for
`cosine_similarity`, whose specification properties need exact real
arithmetic and which is modelled over `ℝ`; I/O results (HTTP responses, file
reads, the pickle cache) are passed in explicitly as environment values; a
failed embedding call is the empty vector `[]`, exactly as in the Python code
(`get_embedding` returns `[]` on every failure path and callers test
falsiness).
-/

/-! ## Python string primitives, re-implemented structurally on `List Char` -/

/-- Python `str.lower()` restricted to ASCII (the repository's patterns and
queries are ASCII). -/
def pyLower (cs : List Char) : List Char := cs.map Char.toLower

/-- Python `str.strip()`: drop leading and trailing whitespace. -/
def pyStrip (cs : List Char) : List Char :=
  ((cs.dropWhile Char.isWhitespace).reverse.dropWhile Char.isWhitespace).reverse

/-- Does `p` match at the head of `s` (leading-segment test)? -/
def leadMatch : List Char → List Char → Bool
  | [], _ => true
  | _ :: _, [] => false
  | a :: ps, b :: ss => a = b && leadMatch ps ss

/-- Python `p in s` on strings: `p` occurs contiguously somewhere in `s`. -/
def isSubstr (p : List Char) : List Char → Bool
  | [] => leadMatch p []
  | c :: rest => leadMatch p (c :: rest) || isSubstr p rest

/-- Helper for Python `str.split()` with no separator: counts maximal
whitespace-free runs.  `inWord` records whether the previous character was a
non-whitespace character. -/
def countWords : List Char → Bool → Nat
  | [], _ => 0
  | c :: rest, inWord =>
    if c.isWhitespace then countWords rest false
    else (if inWord then 0 else 1) + countWords rest true

/-- Python `len(s.split())`: the number of whitespace-separated words. -/
def wordCount (cs : List Char) : Nat := countWords cs false

/-- Python `s.count(c)` for a single character. -/
def countChar (c : Char) (cs : List Char) : Nat := (cs.filter (· = c)).length

/-- Python `s.isupper()` (ASCII): at least one cased character and no
lowercase character. -/
def pyIsUpper (cs : List Char) : Bool :=
  cs.any Char.isAlpha && cs.all (fun c => !c.isLower)

/-! ## `src/core/config.py`: pattern sets and chunk-size budgets -/

namespace Config

def COUNTING_PATTERNS : List String :=
  ["how many", "count", "number of", "total", "sum of",
   "quantity", "amount of", "frequency"]

def ANALYSIS_PATTERNS : List String :=
  ["analyze", "compare", "relationship", "pattern", "trend",
   "correlation", "summary", "overview", "insights"]

def SEARCH_PATTERNS : List String :=
  ["find", "search", "locate", "where", "which", "what is",
   "show me", "list", "identify"]

/-- Lookup `CHUNK_SIZES.get(t, 30)` from `config.py`. -/
def CHUNK_SIZES_get (t : String) : Nat :=
  if t = "structured_data" then 25
  else if t = "tabular" then 15
  else if t = "header" then 50
  else if t = "text" then 30
  else if t = "empty" then 0
  else 30

end Config

/-! ## `src/core/search.py`: `SearchService.classify_query` -/

namespace SearchService

/-- One pattern-set test of `classify_query`:
`any(pattern in query_lower for pattern in patterns)`. -/
def anyPatternIn (patterns : List String) (ql : List Char) : Bool :=
  patterns.any (fun p => isSubstr p.toList ql)

/-- The method `SearchService.classify_query` (`search.py` lines 8-19): an if/elif
chain over the three pattern sets on the lower-cased question, defaulting to
`"general"`. -/
def classify_query (query : String) : String :=
  let query_lower := pyLower query.toList
  if anyPatternIn Config.COUNTING_PATTERNS query_lower then "counting"
  else if anyPatternIn Config.ANALYSIS_PATTERNS query_lower then "analysis"
  else if anyPatternIn Config.SEARCH_PATTERNS query_lower then "search"
  else "general"

/-- Number of patterns of one set occurring in the lower-cased question
(the per-category match count the specification speaks about). -/
def matchCount (patterns : List String) (ql : List Char) : Nat :=
  (patterns.filter (fun p => isSubstr p.toList ql)).length

end SearchService

/-- The classification rule exactly as the specification words it (claim C1):
per-category match counts, argmax with ties broken in declaration order
counting → analysis → search, and `"general"` exactly when all three counts
are zero.  Written from the spec, to be compared with `classify_query`. -/
def primaryTypeSpec (query : String) : String :=
  let ql := pyLower query.toList
  let c := SearchService.matchCount Config.COUNTING_PATTERNS ql
  let a := SearchService.matchCount Config.ANALYSIS_PATTERNS ql
  let s := SearchService.matchCount Config.SEARCH_PATTERNS ql
  if c = 0 ∧ a = 0 ∧ s = 0 then "general"
  else if c ≥ a ∧ c ≥ s then "counting"
  else if a ≥ s then "analysis"
  else "search"

/-! ## Chunk metadata records (the Python per-chunk dicts) -/

/-- One chunk dict produced by `create_adaptive_chunks`
(`{'content', 'type', 'line_count', 'start_line', 'end_line'}`). -/
structure ChunkData where
  content : String
  type : String
  line_count : Nat
  start_line : Int
  end_line : Int
deriving DecidableEq, Repr

/-- Default metadata record used for the (unreachable in practice)
out-of-bounds lookup `chunk_metadata[chunk_idx]`. -/
def ChunkData.default : ChunkData :=
  { content := "", type := "", line_count := 0, start_line := 0, end_line := 0 }

/-! ## `src/core/search.py`: `SearchService.adaptive_search` -/

namespace SearchService

/-- The embedding-service object handed to `SearchService.__init__`.  Python
duck-types it; the two methods `adaptive_search` calls are a text-embedding
call (returning `[]` on failure, as `EmbeddingService.get_embedding` does on
every failure path) and a similarity function.  Vector arithmetic is carried
out in `ℚ` here; the exact definition of the service's real-valued
`cosine_similarity` is embedded separately below. -/
structure EmbeddingClient where
  get_embedding : String → List ℚ
  cosine_similarity : List ℚ → List ℚ → ℚ

/-- The `'counting'` selection loop of `adaptive_search`: walk the
similarity-sorted pairs, keep structured-data chunks at similarity ≥ 0.3 and
any chunk at similarity ≥ 0.6, and break once 15 chunks are selected. -/
def countingSelect (chunk_metadata : List ChunkData) :
    List (Nat × ℚ) → List Nat → List Nat
  | [], selected => selected
  | (chunk_idx, similarity) :: rest, selected =>
    let selected :=
      if (chunk_metadata.getD chunk_idx ChunkData.default).type = "structured_data"
          ∧ similarity ≥ 3/10 then
        selected ++ [chunk_idx]
      else if similarity ≥ 6/10 then selected ++ [chunk_idx]
      else selected
    if 15 ≤ selected.length then selected
    else countingSelect chunk_metadata rest selected

/-- The `'analysis'` selection loop of `adaptive_search`: keep chunks at
similarity ≥ 0.5, breaking once 10 are selected.  (The Python loop also
accumulates a `seen_types` set that is never read afterwards; that dead
state is omitted.) -/
def analysisSelect : List (Nat × ℚ) → List Nat → List Nat
  | [], selected => selected
  | (chunk_idx, similarity) :: rest, selected =>
    let selected := if similarity ≥ 5/10 then selected ++ [chunk_idx] else selected
    if 10 ≤ selected.length then selected
    else analysisSelect rest selected

/-- The method `SearchService.adaptive_search` (`search.py` lines 21-61).  On embedding
failure (`if not query_embedding`) it returns `[]`; otherwise it scores every
chunk embedding, sorts descending by similarity (Python's stable sort), and
applies the per-query-type selection policy. -/
def adaptive_search (E : EmbeddingClient) (query : String) (query_type : String)
    (chunk_embeddings : List (List ℚ)) (chunk_metadata : List ChunkData) : List Nat :=
  let query_embedding := E.get_embedding query
  if query_embedding = [] then []
  else
    let similarities :=
      chunk_embeddings.enum.map
        (fun p => (p.1, E.cosine_similarity query_embedding p.2))
    let similarities := similarities.mergeSort (fun a b => b.2 ≤ a.2)
    if query_type = "counting" then countingSelect chunk_metadata similarities []
    else if query_type = "analysis" then analysisSelect similarities []
    else ((similarities.take 8).filter (fun p => p.2 ≥ 7/10)).map Prod.fst

/-- The selection cap of each policy branch of `adaptive_search`. -/
def policyCap (query_type : String) : Nat :=
  if query_type = "counting" then 15
  else if query_type = "analysis" then 10
  else 8

end SearchService

/-! ## `src/core/embeddings.py`: `EmbeddingService.cosine_similarity`

The numpy float arithmetic is modelled over `ℝ`: `np.dot` is the sum of
pairwise products and `np.linalg.norm` is the square root of the dot product
of a vector with itself. -/

namespace EmbeddingService

/-- Dot product `np.dot(vec1, vec2)` for flat vectors. -/
def dotList (v w : List ℝ) : ℝ := (List.zipWith (fun a b => a * b) v w).sum

/-- Euclidean norm `np.linalg.norm(vec)`. -/
noncomputable def normList (v : List ℝ) : ℝ := Real.sqrt (dotList v v)

/-- The method `EmbeddingService.cosine_similarity` (`embeddings.py` lines 42-54):
`0` when either norm is zero, otherwise the normalised dot product. -/
noncomputable def cosine_similarity (vec1 vec2 : List ℝ) : ℝ :=
  if normList vec1 = 0 ∨ normList vec2 = 0 then 0
  else dotList vec1 vec2 / (normList vec1 * normList vec2)

end EmbeddingService

/-! ## `src/core/chunking.py`: `ChunkingService` -/

namespace ChunkingService

/-- Test `re.match(r'^\d{10,}', line)`: the line starts with at least ten ASCII
digits. -/
def startsWithLongDigits (cs : List Char) : Bool :=
  10 ≤ (cs.takeWhile Char.isDigit).length

/-- Test `re.match(r'^[A-Z]{2,3}-\d+', line)` with Python's backtracking: either
exactly two or exactly three leading uppercase letters, then `-`, then a
digit. -/
def startsWithCode (cs : List Char) : Bool :=
  match cs with
  | a :: b :: '-' :: d :: _ => a.isUpper && b.isUpper && d.isDigit
  | _ => false
  || match cs with
  | a :: b :: c :: '-' :: d :: _ => a.isUpper && b.isUpper && c.isUpper && d.isDigit
  | _ => false

/-- The method `ChunkingService.detect_content_type` (`chunking.py` lines 22-37).
`len(line.split(sep)) > 3` for an explicit separator means the separator
occurs at least three times. -/
def detect_content_type (line : String) : String :=
  let cs := pyStrip line.toList
  if cs = [] then "empty"
  else if startsWithLongDigits cs || startsWithCode cs then "structured_data"
  else if 3 ≤ countChar '\t' cs || 3 ≤ countChar ',' cs then "tabular"
  else if pyIsUpper cs || cs.getLastD ' ' = ':' then "header"
  else "text"

/-- Build one chunk dict as the Python loop does at a flush occurring while
visiting the 0-based line index `i`. -/
def mkChunk (current_chunk_lines : List String) (current_content_type : String)
    (i : Nat) : ChunkData :=
  { content := String.intercalate "\n" current_chunk_lines
    type := current_content_type
    line_count := current_chunk_lines.length
    start_line := (i : Int) - current_chunk_lines.length + 1
    end_line := (i : Int) }

/-- The `for i, line in enumerate(lines)` loop of `create_adaptive_chunks`
plus the final-buffer flush, which uses `len(lines)` (`totalLines`) for its
line numbers. -/
def chunkLoop (totalLines : Nat) :
    List String → Nat → List String → String → List ChunkData → List ChunkData
  | [], _, current_chunk_lines, current_content_type, chunks =>
    if current_chunk_lines ≠ [] then
      chunks ++ [mkChunk current_chunk_lines current_content_type totalLines]
    else chunks
  | line :: rest, i, current_chunk_lines, current_content_type, chunks =>
    let line_stripped := pyStrip line.toList
    if line_stripped = [] then
      chunkLoop totalLines rest (i + 1) current_chunk_lines current_content_type chunks
    else
      let lineStr := String.mk line_stripped
      let content_type := detect_content_type lineStr
      let start_new_chunk :=
        current_content_type ≠ content_type ∨
          Config.CHUNK_SIZES_get content_type ≤ current_chunk_lines.length
      if start_new_chunk ∧ current_chunk_lines ≠ [] then
        chunkLoop totalLines rest (i + 1) [lineStr] content_type
          (chunks ++ [mkChunk current_chunk_lines current_content_type i])
      else
        chunkLoop totalLines rest (i + 1) (current_chunk_lines ++ [lineStr])
          content_type chunks

/-- The method `ChunkingService.create_adaptive_chunks` (`chunking.py` lines 39-92). -/
def create_adaptive_chunks (lines : List String) : List ChunkData :=
  chunkLoop lines.length lines 0 [] "unknown" []

/-- The per-chunk embedding loop of `load_and_process_document`
(lines 136-149): in chunk order, embed each chunk's content and fail the
whole ingest (`None`) on the first embedding failure, otherwise return the
three parallel sequences. -/
def embedChunks (embed : String → List ℚ) :
    List ChunkData → Option (List String × List (List ℚ) × List ChunkData)
  | [] => some ([], [], [])
  | chunk_data :: rest =>
    let embedding := embed chunk_data.content
    if embedding = [] then none
    else
      match embedChunks embed rest with
      | none => none
      | some (chunks, chunk_embeddings, chunk_metadata) =>
        some (chunk_data.content :: chunks, embedding :: chunk_embeddings,
          chunk_data :: chunk_metadata)

/-- One persisted cache record (`cache_data` in `chunking.py`). -/
structure CacheData where
  file_hash : String
  timestamp : Int
  chunks : List String
  chunk_embeddings : List (List ℚ)
  chunk_metadata : List ChunkData
deriving DecidableEq

/-- Outcome of trying to read the pickle cache file: the file does not
exist, reading/unpickling raised (the `except` path), or a record was
loaded. -/
inductive CacheLoad where
  | absent
  | corrupt
  | found (d : CacheData)

/-- The I/O environment a single `load_and_process_document` call observes:
the md5 of the source file, the cache-read outcome, whether the source file
exists, its modification timestamp, the `readlines()` result (`none` if
opening raised), the embedding service, and whether the final
`pickle.dump` succeeds. -/
structure IngestEnv where
  fileHash : String
  cacheRead : CacheLoad
  fileExists : Bool
  mtime : Int
  readFile : Option (List String)
  embed : String → List ℚ
  writeOk : Bool

/-- The cache-miss tail of `load_and_process_document` (lines 118-167):
read the file, chunk it, embed every chunk, and on success persist (write
failures are caught and ignored).  Returns the returned triple (`none`
standing for Python's `(None, None, None)`) paired with the cache record
written, if any. -/
def processFresh (env : IngestEnv) :
    Option (List String × List (List ℚ) × List ChunkData) × Option CacheData :=
  match env.readFile with
  | none => (none, none)
  | some lines =>
    let chunks_data := create_adaptive_chunks lines
    match embedChunks env.embed chunks_data with
    | none => (none, none)
    | some (chunks, chunk_embeddings, chunk_metadata) =>
      (some (chunks, chunk_embeddings, chunk_metadata),
        if env.writeOk then
          some { file_hash := env.fileHash, timestamp := env.mtime,
                 chunks := chunks, chunk_embeddings := chunk_embeddings,
                 chunk_metadata := chunk_metadata }
        else none)

/-- The method `ChunkingService.load_and_process_document` (`chunking.py` lines
94-167): try the cache first (a hit requires matching hash, an existing
source file and a matching timestamp), otherwise process from scratch. -/
def load_and_process_document (env : IngestEnv) :
    Option (List String × List (List ℚ) × List ChunkData) × Option CacheData :=
  match env.cacheRead with
  | .found cached_data =>
    if cached_data.file_hash = env.fileHash ∧ env.fileExists
        ∧ cached_data.timestamp = env.mtime then
      (some (cached_data.chunks, cached_data.chunk_embeddings,
        cached_data.chunk_metadata), none)
    else processFresh env
  | _ => processFresh env

/-- A cache miss: the condition under which `load_and_process_document`
falls through to fresh processing. -/
def cacheMiss (env : IngestEnv) : Prop :=
  match env.cacheRead with
  | .found cached_data =>
    ¬(cached_data.file_hash = env.fileHash ∧ env.fileExists
        ∧ cached_data.timestamp = env.mtime)
  | _ => True

/-- The parity-and-correspondence invariant of claim C7 for one
(chunks, embeddings, metadata) triple: equal lengths, and the embedding at
index `i` is the embedding of the chunk at index `i`. -/
def TripleWF (embed : String → List ℚ)
    (t : List String × List (List ℚ) × List ChunkData) : Prop :=
  t.1.length = t.2.1.length ∧ t.1.length = t.2.2.length ∧
    ∀ i (h1 : i < t.1.length) (h2 : i < t.2.1.length),
      t.2.1.get ⟨i, h2⟩ = embed (t.1.get ⟨i, h1⟩)

end ChunkingService

/-! ## `src/core/quality.py`: `QualityEvaluator` -/

namespace QualityEvaluator

/-- One section of the JSON object the evaluator prompt requests
(`groundedness` / `accuracy` / `relevance`), as far as
`format_metrics_response` reads it via `.get` with defaults.  A JSON object
whose `score` is not a number is folded into the parse-failure outcome,
since the resulting `TypeError` inside `format_metrics_response` is caught
and also yields `default_metrics`. -/
structure RawSection where
  score : Option ℚ
  reasoning : Option String
  evidence : Option (List String)
  issues : Option (List String)
  alignment : Option String

/-- The raw `overall_assessment` object; only `summary` is ever read by the
code, but the LLM is asked for `average_score` and `acceptable` too, so they
are part of the parsed shape. -/
structure RawOverall where
  average_score : Option ℚ
  acceptable : Option Bool
  summary : Option String

/-- The JSON shape `evaluate_answer_quality` asks the LLM to produce,
projected onto the keys the code reads. -/
structure RawMetrics where
  groundedness : Option RawSection
  accuracy : Option RawSection
  relevance : Option RawSection
  overall_assessment : Option RawOverall

/-- The default `{}` for a missing metrics section. -/
def RawSection.empty : RawSection :=
  { score := none, reasoning := none, evidence := none, issues := none,
    alignment := none }

/-- The default `{}` for a missing `overall_assessment`. -/
def RawOverall.empty : RawOverall :=
  { average_score := none, acceptable := none, summary := none }

structure GroundednessReport where
  score : ℚ
  reasoning : String
  evidence : List String
deriving DecidableEq

structure AccuracyReport where
  score : ℚ
  reasoning : String
  issues : List String
deriving DecidableEq

structure RelevanceReport where
  score : ℚ
  reasoning : String
  alignment : String
deriving DecidableEq

structure OverallAssessment where
  average_score : ℚ
  acceptable : Bool
  summary : String
  needs_review : Bool
deriving DecidableEq

/-- The metrics dict `QualityEvaluator` returns. -/
structure QualityMetrics where
  groundedness : GroundednessReport
  accuracy : AccuracyReport
  relevance : RelevanceReport
  overall_assessment : OverallAssessment
deriving DecidableEq

/-- Python's `round(x, 1)` (banker's rounding to one decimal place,
on exact rationals). -/
def pyRound1 (x : ℚ) : ℚ :=
  let y := 10 * x
  let f := ⌊y⌋
  let r := y - f
  (if r < 1/2 then f
   else if r > 1/2 then f + 1
   else if Even f then f else f + 1 : ℤ) / 10

/-- The method `QualityEvaluator.default_metrics` (`quality.py` lines 153-164). -/
def default_metrics : QualityMetrics :=
  { groundedness := { score := 0, reasoning := "Evaluation unavailable", evidence := [] }
    accuracy := { score := 0, reasoning := "Evaluation unavailable", issues := [] }
    relevance := { score := 0, reasoning := "Evaluation unavailable", alignment := "Unknown" }
    overall_assessment :=
      { average_score := 0, acceptable := false,
        summary := "Quality metrics evaluation failed", needs_review := true } }

/-- The method `QualityEvaluator.format_metrics_response` (`quality.py` lines 112-147):
clamp each reported score to `[0,100]`, recompute the average locally from
the three raw scores, and derive `acceptable` from that average. -/
def format_metrics_response (raw_metrics : RawMetrics) : QualityMetrics :=
  let groundedness := raw_metrics.groundedness.getD RawSection.empty
  let accuracy := raw_metrics.accuracy.getD RawSection.empty
  let relevance := raw_metrics.relevance.getD RawSection.empty
  let scores := [groundedness.score.getD 0, accuracy.score.getD 0, relevance.score.getD 0]
  let average := if scores ≠ [] then scores.sum / scores.length else 0
  { groundedness :=
      { score := max 0 (min 100 (groundedness.score.getD 0))
        reasoning := groundedness.reasoning.getD "No evaluation available"
        evidence := groundedness.evidence.getD [] }
    accuracy :=
      { score := max 0 (min 100 (accuracy.score.getD 0))
        reasoning := accuracy.reasoning.getD "No evaluation available"
        issues := accuracy.issues.getD [] }
    relevance :=
      { score := max 0 (min 100 (relevance.score.getD 0))
        reasoning := relevance.reasoning.getD "No evaluation available"
        alignment := relevance.alignment.getD "No assessment available" }
    overall_assessment :=
      { average_score := pyRound1 average
        acceptable := decide (average ≥ 80)
        summary := ((raw_metrics.overall_assessment.getD RawOverall.empty).summary).getD
          "Quality assessment completed"
        needs_review := decide (average < 80) } }

/-- What one HTTP POST to the completion endpoint can yield: an exception
(`none`) or a status code with the (possibly missing/empty) message
content. -/
abbrev PostResult := Option (Nat × Option String)

/-- The I/O environment of one `evaluate_answer_quality` call: the
`ensure_authenticated` outcome, the first POST's result, whether the token
refresh after a 401 succeeds, the retried POST's result, and the
`json.loads` parse of a content string (`none` = unparsable as the expected
shape). -/
structure EvalEnv where
  ensureAuth : Bool
  resp1 : PostResult
  refreshOk : Bool
  resp2 : PostResult
  parse : String → Option RawMetrics

/-- The response `evaluate_answer_quality` ends up inspecting after the
one-shot 401 retry (`quality.py` lines 83-88). -/
def finalResponse (env : EvalEnv) : PostResult :=
  match env.resp1 with
  | none => none
  | some (code, content) =>
    if code = 401 then
      if env.refreshOk then env.resp2 else some (code, content)
    else some (code, content)

/-- Handling of the message content of a 200 response (`quality.py` lines
92-103): missing or empty content falls through to the default, otherwise
the content is parsed and formatted, any parse failure yielding the
default. -/
def handleContent (env : EvalEnv) : Option String → QualityMetrics
  | none => default_metrics
  | some c =>
    if c = "" then default_metrics
    else
      match env.parse c with
      | none => default_metrics
      | some metrics_data => format_metrics_response metrics_data

/-- Handling of the final HTTP outcome (`quality.py` lines 90-110): an
exception or a non-200 status yields the default metrics. -/
def handleResponse (env : EvalEnv) : PostResult → QualityMetrics
  | none => default_metrics
  | some (code, content) =>
    if code = 200 then handleContent env content
    else default_metrics

/-- The method `QualityEvaluator.evaluate_answer_quality` (`quality.py` lines 10-110),
as a function of its I/O environment: every failure path (auth failure,
exception, non-200, missing/empty content, unparsable content) returns
`default_metrics`; a parsed response is passed to
`format_metrics_response`. -/
def evaluate_answer_quality (env : EvalEnv) : QualityMetrics :=
  if env.ensureAuth = false then default_metrics
  else handleResponse env (finalResponse env)

/-- The failure disjunction of claim C5: the LLM call failed (auth failure,
exception, non-200) or its response carries no parseable metrics object. -/
def callFailsOrUnparsable (env : EvalEnv) : Prop :=
  env.ensureAuth = false ∨
  finalResponse env = none ∨
  (∃ code content, finalResponse env = some (code, content) ∧ code ≠ 200) ∨
  (∃ content, finalResponse env = some (200, content) ∧
    (content = none ∨ content = some "")) ∨
  (∃ c, finalResponse env = some (200, some c) ∧ c ≠ "" ∧ env.parse c = none)

end QualityEvaluator

/-! ## `src/enhanced/decomposition.py`: `QueryDecomposer`

The decomposition patterns use only three regex constructs: literal
characters, a single optional character (`s?`), and `.*`.  They are compiled
here into token lists for a small matcher with exactly Python `re`'s
semantics on that fragment (`.` does not match a newline; `re.search` looks
for a match starting at any position).  The coordinating-conjunction check
`\b(and|or|also|additionally|furthermore)\b` is modelled by a dedicated
whole-word search. -/

namespace QueryDecomposer

/-- One token of the regex fragment used by the decomposition patterns. -/
inductive RTok where
  | lit (c : Char)
  | opt (c : Char)
  | dotStar
deriving DecidableEq

/-- Matcher worker, structurally recursive on a fuel argument so that it
evaluates inside the kernel.  Every recursive call strictly decreases
`ps.length + cs.length`, so any fuel above that sum makes the `0` branch
unreachable. -/
def rmatchF : Nat → List RTok → List Char → Bool
  | 0, _, _ => false
  | _ + 1, [], _ => true
  | _ + 1, .lit _ :: _, [] => false
  | fuel + 1, .lit a :: ps, c :: cs => a = c && rmatchF fuel ps cs
  | fuel + 1, .opt _ :: ps, [] => rmatchF fuel ps []
  | fuel + 1, .opt a :: ps, c :: cs =>
    rmatchF fuel ps (c :: cs) || (a = c && rmatchF fuel ps cs)
  | fuel + 1, .dotStar :: ps, [] => rmatchF fuel ps []
  | fuel + 1, .dotStar :: ps, c :: cs =>
    rmatchF fuel ps (c :: cs) || (c ≠ '\n' && rmatchF fuel (.dotStar :: ps) cs)

/-- Match a token list against a prefix of the character list (trailing
characters are allowed, as under `re.search`). -/
def rmatch (ps : List RTok) (cs : List Char) : Bool :=
  rmatchF (ps.length + cs.length + 1) ps cs

/-- Semantics of `re.search(pattern, s)`: the pattern matches starting at some
position. -/
def rsearch (ps : List RTok) : List Char → Bool
  | [] => rmatch ps []
  | c :: cs => rmatch ps (c :: cs) || rsearch ps cs

/-- Compile a plain literal string to tokens. -/
def lits (s : String) : List RTok := s.toList.map RTok.lit

/-- The `decomposition_patterns` dict of `_init_decomposition_patterns`
(`decomposition.py` lines 8-52), in declaration order, each regex compiled
to tokens. -/
def decomposition_patterns : List (String × List (List RTok)) :=
  [("overall_numbers",
    [lits "total" ++ [.dotStar] ++ lits "complaint" ++ [.opt 's'],
     lits "overall" ++ [.dotStar] ++ lits "number" ++ [.opt 's'],
     lits "substantiated" ++ [.dotStar] ++ lits "unsubstantiated",
     lits "complaint" ++ [.dotStar] ++ lits "count",
     lits "how many" ++ [.dotStar] ++ lits "total"]),
   ("comparison",
    [lits "compare" ++ [.dotStar] ++ lits "previous",
     lits "increased" ++ [.dotStar] ++ lits "decreased",
     lits "trend" ++ [.dotStar] ++ lits "period",
     lits "vs" ++ [.dotStar] ++ lits "previous",
     lits "compared to"]),
   ("market_specific",
    [lits "israel" ++ [.dotStar] ++ lits "market",
     lits "local" ++ [.dotStar] ++ lits "market",
     lits "market" ++ [.dotStar] ++ lits "specific",
     lits "israel" ++ [.dotStar] ++ lits "complaint" ++ [.opt 's'],
     lits "country" ++ [.dotStar] ++ lits "specific"]),
   ("capa_details",
    [lits "capa" ++ [.dotStar] ++ lits "status",
     lits "capa" ++ [.dotStar] ++ lits "details",
     lits "corrective" ++ [.dotStar] ++ lits "action",
     lits "preventive" ++ [.dotStar] ++ lits "action",
     lits "in place" ++ [.dotStar] ++ lits "ongoing"]),
   ("complaint_reasons",
    [lits "main" ++ [.dotStar] ++ lits "reason" ++ [.opt 's'],
     lits "complaint" ++ [.dotStar] ++ lits "type" ++ [.opt 's'],
     lits "core" ++ [.dotStar] ++ lits "issue" ++ [.opt 's'],
     lits "primary" ++ [.dotStar] ++ lits "cause" ++ [.opt 's'],
     lits "reason" ++ [.opt 's', .dotStar] ++ lits "complaint" ++ [.opt 's']]),
   ("trends_patterns",
    [lits "trend" ++ [.opt 's', .dotStar] ++ lits "pattern" ++ [.opt 's'],
     lits "significant" ++ [.dotStar] ++ lits "trend" ++ [.opt 's'],
     lits "market" ++ [.dotStar] ++ lits "trend" ++ [.opt 's'],
     lits "negative" ++ [.dotStar] ++ lits "trend" ++ [.opt 's'],
     lits "pattern" ++ [.opt 's', .dotStar] ++ lits "identified"])]

/-- Character class `\w` (ASCII): letters, digits or underscore. -/
def isWordChar (c : Char) : Bool := c.isAlphanum || c = '_'

/-- Does one of the words occur at the head of `cs` with a word boundary on
each side?  `before` is the character immediately before `cs`, if any. -/
def wordHereOneOf (words : List (List Char)) (before : Option Char)
    (cs : List Char) : Bool :=
  words.any (fun w =>
    (match before with | none => true | some b => !isWordChar b) &&
    leadMatch w cs &&
    (match cs.drop w.length with | [] => true | c :: _ => !isWordChar c))

/-- Semantics of `re.search(r'\b(w1|w2|...)\b', s)`: some word occurs somewhere in `s`
delimited by word boundaries. -/
def wordSearchOneOf (words : List (List Char)) (before : Option Char) :
    List Char → Bool
  | [] => wordHereOneOf words before []
  | c :: cs =>
    wordHereOneOf words before (c :: cs) || wordSearchOneOf words (some c) cs

/-- The coordinating-conjunction test of `assess_query_complexity`
(`re.search(r'\b(and|or|also|additionally|furthermore)\b', query_lower)`). -/
def hasConjunction (ql : List Char) : Bool :=
  wordSearchOneOf
    (["and", "or", "also", "additionally", "furthermore"].map String.toList)
    none ql

/-- The method `QueryDecomposer.assess_query_complexity` (`decomposition.py` lines
122-137): one point per matched pattern category, plus one each for a word
count above 30, more than two commas, and a coordinating conjunction. -/
def assess_query_complexity (query : String) : Nat :=
  let query_lower := pyLower query.toList
  let complexity :=
    decomposition_patterns.foldl
      (fun complexity cat =>
        if cat.2.any (fun p => rsearch p query_lower) then complexity + 1
        else complexity)
      0
  let complexity := if 30 < wordCount query.toList then complexity + 1 else complexity
  let complexity := if 2 < countChar ',' query.toList then complexity + 1 else complexity
  let complexity := if hasConjunction query_lower then complexity + 1 else complexity
  complexity

/-- The number of distinct decomposition-pattern categories matched by the
lower-cased question (the first summand of the claimed complexity
formula). -/
def categoriesMatched (query : String) : Nat :=
  (decomposition_patterns.filter
    (fun cat => cat.2.any (fun p => rsearch p (pyLower query.toList)))).length

end QueryDecomposer

/-! ## `src/enhanced/orchestrator.py`: the routing decision of
`EnhancedRAG.enhanced_query` -/

namespace EnhancedRAG

/-- Which path `enhanced_query` takes for a question. -/
inductive Approach where
  | standard
  | decomposition
deriving DecidableEq

/-- The routing branch of `EnhancedRAG.enhanced_query` (`orchestrator.py`
lines 28-47): complexity below 3 is handled by the base single-query
pipeline (`super().query`), everything else by decomposition.  The work
done on each path is delegated to the respective sub-pipelines and is not
needed for the routing claim. -/
def enhanced_query_approach (question : String) : Approach :=
  if QueryDecomposer.assess_query_complexity question < 3 then .standard
  else .decomposition

end EnhancedRAG

/-! # Shared concrete inputs for witnesses and counterexamples -/

/-- An embedding service whose embedding call always fails (returns `[]`,
as `EmbeddingService.get_embedding` does on every failure path). -/
def failingClient : SearchService.EmbeddingClient :=
  { get_embedding := fun _ => [], cosine_similarity := fun _ _ => 0 }

/-- Concrete ingestion environment for witnesses: no cache, a one-line
document, an embedding service that always succeeds. -/
def okIngestEnv : ChunkingService.IngestEnv :=
  { fileHash := "h", cacheRead := .absent, fileExists := true, mtime := 0,
    readFile := some ["hello"], embed := fun _ => [1], writeOk := true }

/-- Concrete ingestion environment whose embedding calls all fail. -/
def failIngestEnv : ChunkingService.IngestEnv :=
  { fileHash := "h", cacheRead := .absent, fileExists := true, mtime := 0,
    readFile := some ["hello"], embed := fun _ => [], writeOk := true }

/-- Concrete evaluation environment whose LLM call succeeds with status 200
but whose content is not parseable as the expected metrics JSON. -/
def unparsableEvalEnv : QualityEvaluator.EvalEnv :=
  { ensureAuth := true, resp1 := some (200, some "I cannot answer that"),
    refreshOk := false, resp2 := none, parse := fun _ => none }

/-- The raw score the code reads out of one optional metrics section
(`section.get('score', 0)` after `raw.get(key, {})`). -/
def QualityEvaluator.rawScore (o : Option QualityEvaluator.RawSection) : ℚ :=
  (o.getD QualityEvaluator.RawSection.empty).score.getD 0

/-! # Helper lemmas -/

namespace EmbeddingService

lemma zipWith_mul_self (v : List ℝ) :
    List.zipWith (fun a b => a * b) v v = v.map (fun a => a * a) := by
  induction v with
  | nil => rfl
  | cons x xs ih => simp [List.zipWith, ih]

lemma sum_nonneg_of_mem {l : List ℝ} (h : ∀ x ∈ l, 0 ≤ x) : 0 ≤ l.sum := by
  induction l with
  | nil => simp
  | cons x xs ih =>
    simp only [List.sum_cons]
    have := h x (by simp)
    have := ih (fun y hy => h y (by simp [hy]))
    linarith

lemma sum_pos_of_mem {l : List ℝ} (h0 : ∀ x ∈ l, 0 ≤ x) (h : ∃ x ∈ l, 0 < x) :
    0 < l.sum := by
  induction l with
  | nil => simp at h
  | cons x xs ih =>
    simp only [List.sum_cons]
    rcases h with ⟨y, hy, hypos⟩
    rcases List.mem_cons.mp hy with rfl | hmem
    · have := sum_nonneg_of_mem (fun z hz => h0 z (List.mem_cons_of_mem _ hz))
      linarith
    · have hx := h0 x (List.mem_cons_self x xs)
      have := ih (fun z hz => h0 z (List.mem_cons_of_mem _ hz)) ⟨y, hmem, hypos⟩
      linarith

lemma dotList_self_nonneg (v : List ℝ) : 0 ≤ dotList v v := by
  unfold dotList
  rw [zipWith_mul_self]
  exact sum_nonneg_of_mem (by
    intro x hx
    rcases List.mem_map.mp hx with ⟨a, _, rfl⟩
    exact mul_self_nonneg a)

lemma dotList_self_pos {v : List ℝ} (h : ∃ x ∈ v, x ≠ 0) : 0 < dotList v v := by
  unfold dotList
  rw [zipWith_mul_self]
  refine sum_pos_of_mem (by
    intro x hx
    rcases List.mem_map.mp hx with ⟨a, _, rfl⟩
    exact mul_self_nonneg a) ?_
  rcases h with ⟨x, hx, hx0⟩
  exact ⟨x * x, List.mem_map.mpr ⟨x, hx, rfl⟩, mul_self_pos.mpr hx0⟩

lemma normList_replicate_zero (n : Nat) : normList (List.replicate n (0 : ℝ)) = 0 := by
  unfold normList dotList
  rw [zipWith_mul_self]
  have : (List.replicate n (0 : ℝ)).map (fun a => a * a) = List.replicate n 0 := by
    simp
  rw [this, List.sum_replicate]
  simp [Real.sqrt_zero]

end EmbeddingService

section ListHelpers

variable {α : Type _}

lemma any_iff_filter_len_pos (l : List α) (p : α → Bool) :
    l.any p = true ↔ 0 < (l.filter p).length := by
  rw [List.any_eq_true, List.length_pos]
  constructor
  · rintro ⟨x, hx, hpx⟩ hnil
    exact (List.filter_eq_nil_iff.mp hnil x hx) hpx
  · intro hne
    rcases List.exists_mem_of_ne_nil _ hne with ⟨x, hx⟩
    rcases List.mem_filter.mp hx with ⟨hmem, hpx⟩
    exact ⟨x, hmem, hpx⟩

lemma foldl_count_eq_filter_len (p : α → Bool) (l : List α) (n : Nat) :
    l.foldl (fun acc x => if p x then acc + 1 else acc) n
      = n + (l.filter p).length := by
  induction l generalizing n with
  | nil => simp
  | cons x xs ih =>
    by_cases hx : p x
    · simp [List.filter, hx, ih]
      omega
    · simp [List.filter, hx, ih]

end ListHelpers

namespace SearchService

lemma countingSelect_len_le (chunk_metadata : List ChunkData) :
    ∀ (l : List (Nat × ℚ)) (selected : List Nat),
      selected.length < 15 → (countingSelect chunk_metadata l selected).length ≤ 15
  | [], selected, h => by
    rw [countingSelect]
    omega
  | (chunk_idx, similarity) :: rest, selected, h => by
    rw [countingSelect]
    set selected' :=
      if (chunk_metadata.getD chunk_idx ChunkData.default).type = "structured_data"
          ∧ similarity ≥ 3/10 then
        selected ++ [chunk_idx]
      else if similarity ≥ 6/10 then selected ++ [chunk_idx]
      else selected with hsel
    have hlen : selected'.length ≤ selected.length + 1 := by
      rw [hsel]
      split_ifs <;> simp
    by_cases hstop : 15 ≤ selected'.length
    · rw [if_pos hstop]
      omega
    · rw [if_neg hstop]
      exact countingSelect_len_le chunk_metadata rest selected' (by omega)

lemma analysisSelect_len_le :
    ∀ (l : List (Nat × ℚ)) (selected : List Nat),
      selected.length < 10 → (analysisSelect l selected).length ≤ 10
  | [], selected, h => by
    rw [analysisSelect]
    omega
  | (chunk_idx, similarity) :: rest, selected, h => by
    rw [analysisSelect]
    set selected' :=
      if similarity ≥ 5/10 then selected ++ [chunk_idx] else selected with hsel
    have hlen : selected'.length ≤ selected.length + 1 := by
      rw [hsel]
      split_ifs <;> simp
    by_cases hstop : 10 ≤ selected'.length
    · rw [if_pos hstop]
      omega
    · rw [if_neg hstop]
      exact analysisSelect_len_le rest selected' (by omega)

end SearchService

namespace ChunkingService

lemma embedChunks_none_of_fail (embed : String → List ℚ) :
    ∀ (l : List ChunkData), (∃ cd ∈ l, embed cd.content = []) →
      embedChunks embed l = none
  | [], h => by simp at h
  | cd :: rest, h => by
    rw [embedChunks]
    rcases h with ⟨cd', hmem, hfail⟩
    rcases List.mem_cons.mp hmem with rfl | hmem'
    · simp [hfail]
    · by_cases hcd : embed cd.content = []
      · simp [hcd]
      · rw [if_neg hcd, embedChunks_none_of_fail embed rest ⟨cd', hmem', hfail⟩]

lemma embedChunks_isSome_of_ok (embed : String → List ℚ) :
    ∀ (l : List ChunkData), (∀ cd ∈ l, embed cd.content ≠ []) →
      (embedChunks embed l).isSome
  | [], _ => by simp [embedChunks]
  | cd :: rest, h => by
    rw [embedChunks]
    have hcd : embed cd.content ≠ [] := h cd (List.mem_cons_self cd rest)
    rw [if_neg hcd]
    have ih := embedChunks_isSome_of_ok embed rest
      (fun cd' hmem => h cd' (List.mem_cons_of_mem _ hmem))
    rcases Option.isSome_iff_exists.mp ih with ⟨t, ht⟩
    rcases t with ⟨c, e, m⟩
    simp [ht]

lemma embedChunks_wf (embed : String → List ℚ) :
    ∀ (l : List ChunkData) (t : List String × List (List ℚ) × List ChunkData),
      embedChunks embed l = some t → TripleWF embed t
  | [], t, h => by
    rw [embedChunks] at h
    cases h
    refine ⟨rfl, rfl, ?_⟩
    intro i h1 _
    simp at h1
  | cd :: rest, t, h => by
    rw [embedChunks] at h
    by_cases hcd : embed cd.content = []
    · simp [hcd] at h
    · rw [if_neg hcd] at h
      rcases hrest : embedChunks embed rest with _ | ⟨⟨c, e, m⟩⟩
      · rw [hrest] at h
        simp at h
      · rw [hrest] at h
        simp only [Option.some.injEq] at h
        subst h
        rcases embedChunks_wf embed rest (c, e, m) hrest with ⟨hl1, hl2, hcorr⟩
        refine ⟨by simpa using hl1, by simpa using hl2, ?_⟩
        intro i h1 h2
        cases i with
        | zero => rfl
        | succ j =>
          exact hcorr j (by simpa using h1) (by simpa using h2)

end ChunkingService

namespace QualityEvaluator

lemma handleResponse_some (env : EvalEnv) (code : Nat) (content : Option String) :
    handleResponse env (some (code, content)) =
      if code = 200 then handleContent env content else default_metrics := rfl

lemma handleContent_some (env : EvalEnv) (c : String) :
    handleContent env (some c) =
      if c = "" then default_metrics
      else
        match env.parse c with
        | none => default_metrics
        | some metrics_data => format_metrics_response metrics_data := rfl

end QualityEvaluator

/-! # Claim theorems -/

/-- Claim C1, counterexample: on the question
`"count and compare the pattern trend"` the code returns `"counting"`
(the first pattern set with a match), while the claimed argmax rule
(`primaryTypeSpec`) returns `"analysis"`, the analysis match count (3)
strictly exceeding the counting match count (1). -/
theorem classify_query_c1_counterexample :
    SearchService.classify_query "count and compare the pattern trend" = "counting" ∧
    primaryTypeSpec "count and compare the pattern trend" = "analysis" ∧
    SearchService.matchCount Config.COUNTING_PATTERNS
        (pyLower "count and compare the pattern trend".toList)
      < SearchService.matchCount Config.ANALYSIS_PATTERNS
        (pyLower "count and compare the pattern trend".toList) := by
  refine ⟨by decide, by decide, by decide⟩

/-- Claim C1 (amended): `classify_query` returns the first category in
declaration order (counting, analysis, search) whose pattern set has a
nonzero match count against the lower-cased question — not the argmax
category — and it returns `"general"` exactly when all three match counts
are zero. -/
theorem classify_query_first_nonzero (query : String) :
    (SearchService.classify_query query =
      if 0 < SearchService.matchCount Config.COUNTING_PATTERNS (pyLower query.toList)
        then "counting"
      else if 0 < SearchService.matchCount Config.ANALYSIS_PATTERNS (pyLower query.toList)
        then "analysis"
      else if 0 < SearchService.matchCount Config.SEARCH_PATTERNS (pyLower query.toList)
        then "search"
      else "general") ∧
    (SearchService.classify_query query = "general" ↔
      SearchService.matchCount Config.COUNTING_PATTERNS (pyLower query.toList) = 0 ∧
      SearchService.matchCount Config.ANALYSIS_PATTERNS (pyLower query.toList) = 0 ∧
      SearchService.matchCount Config.SEARCH_PATTERNS (pyLower query.toList) = 0) := by
  simp only [String.toList]
  have key : ∀ pats : List String,
      SearchService.anyPatternIn pats (pyLower query.data) = true ↔
        0 < SearchService.matchCount pats (pyLower query.data) := by
    intro pats
    unfold SearchService.anyPatternIn SearchService.matchCount
    exact any_iff_filter_len_pos _ _
  have main : SearchService.classify_query query =
      if 0 < SearchService.matchCount Config.COUNTING_PATTERNS (pyLower query.data)
        then "counting"
      else if 0 < SearchService.matchCount Config.ANALYSIS_PATTERNS (pyLower query.data)
        then "analysis"
      else if 0 < SearchService.matchCount Config.SEARCH_PATTERNS (pyLower query.data)
        then "search"
      else "general" := by
    unfold SearchService.classify_query
    rcases hc : SearchService.anyPatternIn Config.COUNTING_PATTERNS (pyLower query.data) with _ | _
    · have hc' : ¬ 0 < SearchService.matchCount Config.COUNTING_PATTERNS (pyLower query.data) :=
        fun h => by rw [(key _).mpr h] at hc; cases hc
      rcases ha : SearchService.anyPatternIn Config.ANALYSIS_PATTERNS (pyLower query.data) with _ | _
      · have ha' : ¬ 0 < SearchService.matchCount Config.ANALYSIS_PATTERNS (pyLower query.data) :=
          fun h => by rw [(key _).mpr h] at ha; cases ha
        rcases hs : SearchService.anyPatternIn Config.SEARCH_PATTERNS (pyLower query.data) with _ | _
        · have hs' : ¬ 0 < SearchService.matchCount Config.SEARCH_PATTERNS (pyLower query.data) :=
            fun h => by rw [(key _).mpr h] at hs; cases hs
          simp [String.toList, hc, ha, hs, hc', ha', hs']
        · have hs' := (key _).mp hs
          simp [String.toList, hc, ha, hs, hc', ha', hs']
      · have ha' := (key _).mp ha
        simp [String.toList, hc, ha, hc', ha']
    · have hc' := (key _).mp hc
      simp [String.toList, hc, hc']
  refine ⟨main, ?_⟩
  rw [main]
  constructor
  · intro hgen
    by_contra hne
    split_ifs at hgen with h1 h2 h3
    · exact absurd hgen (by decide)
    · exact absurd hgen (by decide)
    · exact absurd hgen (by decide)
    · exact hne ⟨by omega, by omega, by omega⟩
  · rintro ⟨h1, h2, h3⟩
    simp [h1, h2, h3]

/-- Claim C2, counterexample: with an embedding service whose question
embedding fails and a two-chunk index, `adaptive_search` returns the empty
selection — there is no keyword-overlap fallback in
`SearchService.adaptive_search`. -/
theorem adaptive_search_c2_counterexample :
    SearchService.adaptive_search failingClient "find israel complaints" "counting"
        [[1], [2]] [ChunkData.default, ChunkData.default] = [] ∧
    ([[1], [2]] : List (List ℚ)).length = 2 := by
  refine ⟨by decide, by decide⟩

/-- Claim C2 (amended): for every question, query type and index, if
embedding the question fails, `adaptive_search` returns the empty selection
`[]` (rather than falling back to any keyword-overlap scorer). -/
theorem adaptive_search_empty_on_embed_fail (E : SearchService.EmbeddingClient)
    (query query_type : String) (chunk_embeddings : List (List ℚ))
    (chunk_metadata : List ChunkData) (h : E.get_embedding query = []) :
    SearchService.adaptive_search E query query_type chunk_embeddings chunk_metadata = [] := by
  unfold SearchService.adaptive_search
  simp [h]

/-- Witness for `adaptive_search_empty_on_embed_fail` at a concrete failing
client and a nonempty index. -/
theorem adaptive_search_empty_on_embed_fail_witness :
    SearchService.adaptive_search failingClient "how many complaints" "analysis"
      [[1]] [ChunkData.default] = [] :=
  adaptive_search_empty_on_embed_fail failingClient "how many complaints" "analysis"
    [[1]] [ChunkData.default] rfl

/-- Claim C8 (confirmed): for every embedding service, question,
classification and index, the number of chunk indices `adaptive_search`
selects never exceeds the cap of its selection policy: 15 for `counting`,
10 for `analysis`, 8 for every other query type (search/general). -/
theorem adaptive_search_le_policyCap (E : SearchService.EmbeddingClient)
    (query query_type : String) (chunk_embeddings : List (List ℚ))
    (chunk_metadata : List ChunkData) :
    (SearchService.adaptive_search E query query_type chunk_embeddings
        chunk_metadata).length ≤ SearchService.policyCap query_type := by
  unfold SearchService.adaptive_search SearchService.policyCap
  by_cases hq : E.get_embedding query = []
  · simp [hq]
  · rw [if_neg hq]
    split_ifs with h1 h2
    · exact SearchService.countingSelect_len_le _ _ [] (by simp)
    · exact SearchService.analysisSelect_len_le _ [] (by simp)
    · simp only [List.length_map]
      exact le_trans (List.length_filter_le _ _) (by rw [List.length_take]; omega)

/-- Claim C3 (confirmed): on a cache miss, if any single per-chunk embedding
call fails during ingestion, `load_and_process_document` returns the failure
value (`None`-triple) and writes nothing to the cache — no partial index is
returned or persisted. -/
theorem ingest_fails_whole_on_embed_fail (env : ChunkingService.IngestEnv)
    (lines : List String) (hmiss : ChunkingService.cacheMiss env)
    (hread : env.readFile = some lines)
    (hfail : ∃ cd ∈ ChunkingService.create_adaptive_chunks lines,
      env.embed cd.content = []) :
    ChunkingService.load_and_process_document env = (none, none) := by
  have hfresh : ChunkingService.processFresh env = (none, none) := by
    unfold ChunkingService.processFresh
    rw [hread]
    simp only
    rw [ChunkingService.embedChunks_none_of_fail env.embed _ hfail]
  unfold ChunkingService.load_and_process_document
  rcases hc : env.cacheRead with _ | _ | d
  · exact hfresh
  · exact hfresh
  · unfold ChunkingService.cacheMiss at hmiss
    rw [hc] at hmiss
    simp only
    rw [if_neg hmiss]
    exact hfresh

/-- Witness for `ingest_fails_whole_on_embed_fail`: the concrete
always-failing environment yields `(none, none)`. -/
theorem ingest_fails_whole_on_embed_fail_witness :
    ChunkingService.load_and_process_document failIngestEnv = (none, none) :=
  ingest_fails_whole_on_embed_fail failIngestEnv ["hello"] trivial rfl
    (by decide)

/-- Claim C7 (confirmed): provided every record in the cache satisfies the
parity invariant (which the second conclusion shows every record written by
ingestion does), any successful ingestion — fresh or from cache — returns
chunks, embeddings and metadata of equal length with the embedding at index
`i` the embedding of the chunk at index `i`, and any cache record it writes
satisfies the same invariant. -/
theorem ingest_parity_invariant (env : ChunkingService.IngestEnv)
    (hcache : ∀ d, env.cacheRead = .found d →
      ChunkingService.TripleWF env.embed (d.chunks, d.chunk_embeddings, d.chunk_metadata)) :
    (∀ t w, ChunkingService.load_and_process_document env = (some t, w) →
      ChunkingService.TripleWF env.embed t) ∧
    (∀ r d, ChunkingService.load_and_process_document env = (r, some d) →
      ChunkingService.TripleWF env.embed (d.chunks, d.chunk_embeddings, d.chunk_metadata)) := by
  have fresh1 : ∀ t w, ChunkingService.processFresh env = (some t, w) →
      ChunkingService.TripleWF env.embed t := by
    intro t w h
    unfold ChunkingService.processFresh at h
    rcases hread : env.readFile with _ | lines
    · rw [hread] at h
      cases h
    · rw [hread] at h
      simp only at h
      rcases hemb : ChunkingService.embedChunks env.embed
          (ChunkingService.create_adaptive_chunks lines) with _ | t'
      · rw [hemb] at h
        cases h
      · rw [hemb] at h
        rcases t' with ⟨c, e, m⟩
        simp only [Prod.mk.injEq, Option.some.injEq] at h
        rw [← h.1]
        exact ChunkingService.embedChunks_wf env.embed _ _ hemb
  have fresh2 : ∀ r d, ChunkingService.processFresh env = (r, some d) →
      ChunkingService.TripleWF env.embed (d.chunks, d.chunk_embeddings, d.chunk_metadata) := by
    intro r d h
    unfold ChunkingService.processFresh at h
    rcases hread : env.readFile with _ | lines
    · rw [hread] at h
      cases h
    · rw [hread] at h
      simp only at h
      rcases hemb : ChunkingService.embedChunks env.embed
          (ChunkingService.create_adaptive_chunks lines) with _ | t'
      · rw [hemb] at h
        cases h
      · rw [hemb] at h
        rcases t' with ⟨c, e, m⟩
        simp only [Prod.mk.injEq] at h
        rcases hw : env.writeOk with _ | _
        · rw [hw] at h
          simp at h
        · rw [hw] at h
          simp only [if_true] at h
          have hd := h.2
          simp only [Option.some.injEq] at hd
          rw [← hd]
          exact ChunkingService.embedChunks_wf env.embed _ _ hemb
  unfold ChunkingService.load_and_process_document
  rcases hc : env.cacheRead with _ | _ | d
  · exact ⟨fun t w h => fresh1 t w h, fun r d h => fresh2 r d h⟩
  · exact ⟨fun t w h => fresh1 t w h, fun r d h => fresh2 r d h⟩
  · by_cases hhit : d.file_hash = env.fileHash ∧ env.fileExists ∧ d.timestamp = env.mtime
    · simp only [if_pos hhit]
      constructor
      · intro t w h
        simp only [Prod.mk.injEq, Option.some.injEq] at h
        rw [← h.1]
        exact hcache d hc
      · intro r d' h
        simp only [Prod.mk.injEq] at h
        cases h.2
    · simp only [if_neg hhit]
      exact ⟨fun t w h => fresh1 t w h, fun r d h => fresh2 r d h⟩

/-- Witness for `ingest_parity_invariant` at the concrete environment
`okIngestEnv` (cache absent, so the cache hypothesis is vacuous): the
returned triple satisfies the parity invariant. -/
theorem ingest_parity_invariant_witness :
    ChunkingService.TripleWF okIngestEnv.embed
      (["hello"], [[1]],
        [{ content := "hello", type := "text", line_count := 1,
           start_line := 1, end_line := 1 }]) :=
  (ingest_parity_invariant okIngestEnv (fun d hd => by cases hd)).1
    (["hello"], [[1]],
      [{ content := "hello", type := "text", line_count := 1,
         start_line := 1, end_line := 1 }])
    (some { file_hash := "h", timestamp := 0, chunks := ["hello"],
            chunk_embeddings := [[1]],
            chunk_metadata := [{ content := "hello", type := "text", line_count := 1,
                                 start_line := 1, end_line := 1 }] })
    (by decide)

/-- Claim C10 (confirmed): on a cache miss with a readable document whose
chunks all embed successfully, `load_and_process_document` returns the
freshly computed triple whether or not the cache write succeeds — a
cache-write failure is swallowed and does not change the returned index. -/
theorem ingest_returns_triple_despite_write_fail (env : ChunkingService.IngestEnv)
    (lines : List String) (hmiss : ChunkingService.cacheMiss env)
    (hread : env.readFile = some lines)
    (hok : ∀ cd ∈ ChunkingService.create_adaptive_chunks lines,
      env.embed cd.content ≠ []) :
    ∀ b : Bool,
      (ChunkingService.load_and_process_document { env with writeOk := b }).1 =
        ChunkingService.embedChunks env.embed
          (ChunkingService.create_adaptive_chunks lines) ∧
      (ChunkingService.embedChunks env.embed
          (ChunkingService.create_adaptive_chunks lines)).isSome := by
  intro b
  have hsome := ChunkingService.embedChunks_isSome_of_ok env.embed _ hok
  refine ⟨?_, hsome⟩
  have hfresh : (ChunkingService.processFresh { env with writeOk := b }).1 =
      ChunkingService.embedChunks env.embed
        (ChunkingService.create_adaptive_chunks lines) := by
    unfold ChunkingService.processFresh
    rw [show ({ env with writeOk := b } : ChunkingService.IngestEnv).readFile
        = some lines from hread]
    simp only
    rcases Option.isSome_iff_exists.mp hsome with ⟨⟨c, e, m⟩, ht⟩
    rw [show ({ env with writeOk := b } : ChunkingService.IngestEnv).embed
        = env.embed from rfl, ht]
  unfold ChunkingService.load_and_process_document
  rcases hc : ({ env with writeOk := b } : ChunkingService.IngestEnv).cacheRead
    with _ | _ | d
  · exact hfresh
  · exact hfresh
  · unfold ChunkingService.cacheMiss at hmiss
    rw [show ({ env with writeOk := b } : ChunkingService.IngestEnv).cacheRead
        = env.cacheRead from rfl] at hc
    rw [hc] at hmiss
    simp only
    rw [if_neg hmiss]
    exact hfresh

/-- Witness for `ingest_returns_triple_despite_write_fail` at the concrete
environment `okIngestEnv` with the cache write forced to fail. -/
theorem ingest_returns_triple_despite_write_fail_witness :
    (ChunkingService.load_and_process_document { okIngestEnv with writeOk := false }).1 =
      ChunkingService.embedChunks okIngestEnv.embed
        (ChunkingService.create_adaptive_chunks ["hello"]) ∧
    (ChunkingService.embedChunks okIngestEnv.embed
        (ChunkingService.create_adaptive_chunks ["hello"])).isSome :=
  ingest_returns_triple_despite_write_fail okIngestEnv ["hello"] trivial rfl
    (by decide) false

/-- Claim C4 (confirmed): `assess_query_complexity` is a pure function of
the question text equal to (number of distinct decomposition-pattern
categories matched) + (1 if the word count exceeds 30) + (1 if the comma
count exceeds 2) + (1 if a coordinating conjunction appears), and
`enhanced_query` routes to decomposition exactly when this score is at
least 3. -/
theorem assess_complexity_formula (question : String) :
    (QueryDecomposer.assess_query_complexity question =
      QueryDecomposer.categoriesMatched question
      + (if 30 < wordCount question.toList then 1 else 0)
      + (if 2 < countChar ',' question.toList then 1 else 0)
      + (if QueryDecomposer.hasConjunction (pyLower question.toList) then 1 else 0)) ∧
    (EnhancedRAG.enhanced_query_approach question = .decomposition ↔
      3 ≤ QueryDecomposer.assess_query_complexity question) := by
  constructor
  · unfold QueryDecomposer.assess_query_complexity QueryDecomposer.categoriesMatched
    simp only [String.toList]
    rw [foldl_count_eq_filter_len
      (fun cat : String × List (List QueryDecomposer.RTok) =>
        cat.2.any (fun p => QueryDecomposer.rsearch p (pyLower question.data)))
      QueryDecomposer.decomposition_patterns 0]
    simp only [Nat.zero_add]
    split_ifs <;> omega
  · unfold EnhancedRAG.enhanced_query_approach
    split_ifs with h
    · constructor
      · intro hh
        exact absurd hh (by decide)
      · intro hh
        omega
    · constructor
      · intro _
        omega
      · intro _
        rfl

/-- Claim C5 (confirmed): whenever the quality-evaluation call fails (auth
failure, exception, non-200 after the one-shot retry) or its content is
missing, empty or unparsable, `evaluate_answer_quality` returns the fixed
`default_metrics` object, whose three scores are 0 and whose overall
assessment has `acceptable = false`. -/
theorem evaluate_default_on_failure (env : QualityEvaluator.EvalEnv)
    (h : QualityEvaluator.callFailsOrUnparsable env) :
    QualityEvaluator.evaluate_answer_quality env = QualityEvaluator.default_metrics ∧
    (QualityEvaluator.evaluate_answer_quality env).groundedness.score = 0 ∧
    (QualityEvaluator.evaluate_answer_quality env).accuracy.score = 0 ∧
    (QualityEvaluator.evaluate_answer_quality env).relevance.score = 0 ∧
    (QualityEvaluator.evaluate_answer_quality env).overall_assessment.acceptable = false := by
  have hmain : QualityEvaluator.evaluate_answer_quality env = QualityEvaluator.default_metrics := by
    unfold QualityEvaluator.evaluate_answer_quality
    by_cases ha : env.ensureAuth = false
    · simp [ha]
    · rw [if_neg ha]
      rcases h with hauth | hresp | ⟨code, content, heq, hne⟩ |
        ⟨content, heq, hc⟩ | ⟨c, heq, hcne, hparse⟩
      · exact absurd hauth ha
      · rw [hresp]
        rfl
      · rw [heq, QualityEvaluator.handleResponse_some, if_neg hne]
      · rw [heq, QualityEvaluator.handleResponse_some, if_pos rfl]
        rcases hc with rfl | rfl
        · rfl
        · rw [QualityEvaluator.handleContent_some, if_pos rfl]
      · rw [heq, QualityEvaluator.handleResponse_some, if_pos rfl,
          QualityEvaluator.handleContent_some, if_neg hcne, hparse]
  refine ⟨hmain, ?_, ?_, ?_, ?_⟩ <;> rw [hmain] <;> rfl

/-- Witness for `evaluate_default_on_failure`: the concrete environment with
unparsable 200-response content yields the default metrics. -/
theorem evaluate_default_on_failure_witness :
    QualityEvaluator.evaluate_answer_quality unparsableEvalEnv =
      QualityEvaluator.default_metrics ∧
    (QualityEvaluator.evaluate_answer_quality unparsableEvalEnv).groundedness.score = 0 ∧
    (QualityEvaluator.evaluate_answer_quality unparsableEvalEnv).accuracy.score = 0 ∧
    (QualityEvaluator.evaluate_answer_quality unparsableEvalEnv).relevance.score = 0 ∧
    (QualityEvaluator.evaluate_answer_quality unparsableEvalEnv).overall_assessment.acceptable
      = false :=
  evaluate_default_on_failure unparsableEvalEnv
    (Or.inr (Or.inr (Or.inr (Or.inr
      ⟨"I cannot answer that", rfl, by decide, rfl⟩))))

/-- Claim C6 (confirmed): on every successfully parsed response, each of the
three reported scores is clamped into `[0,100]` whatever the LLM returned;
the overall average is recomputed locally as the mean of the three raw
scores the LLM reported (its own `overall_assessment.average_score` and
`acceptable` are never read), and `acceptable` is true exactly when that
recomputed mean is at least 80. -/
theorem format_metrics_clamps_and_recomputes (raw : QualityEvaluator.RawMetrics) :
    (0 ≤ (QualityEvaluator.format_metrics_response raw).groundedness.score ∧
      (QualityEvaluator.format_metrics_response raw).groundedness.score ≤ 100) ∧
    (0 ≤ (QualityEvaluator.format_metrics_response raw).accuracy.score ∧
      (QualityEvaluator.format_metrics_response raw).accuracy.score ≤ 100) ∧
    (0 ≤ (QualityEvaluator.format_metrics_response raw).relevance.score ∧
      (QualityEvaluator.format_metrics_response raw).relevance.score ≤ 100) ∧
    ((QualityEvaluator.format_metrics_response raw).overall_assessment.average_score =
      QualityEvaluator.pyRound1
        ((QualityEvaluator.rawScore raw.groundedness + QualityEvaluator.rawScore raw.accuracy
          + QualityEvaluator.rawScore raw.relevance) / 3)) ∧
    ((QualityEvaluator.format_metrics_response raw).overall_assessment.acceptable = true ↔
      80 ≤ (QualityEvaluator.rawScore raw.groundedness + QualityEvaluator.rawScore raw.accuracy
          + QualityEvaluator.rawScore raw.relevance) / 3) := by
  unfold QualityEvaluator.format_metrics_response QualityEvaluator.rawScore
  simp only
  have havg :
      (if ([(raw.groundedness.getD QualityEvaluator.RawSection.empty).score.getD 0,
            (raw.accuracy.getD QualityEvaluator.RawSection.empty).score.getD 0,
            (raw.relevance.getD QualityEvaluator.RawSection.empty).score.getD 0] : List ℚ) ≠ []
        then ([(raw.groundedness.getD QualityEvaluator.RawSection.empty).score.getD 0,
               (raw.accuracy.getD QualityEvaluator.RawSection.empty).score.getD 0,
               (raw.relevance.getD QualityEvaluator.RawSection.empty).score.getD 0] : List ℚ).sum
             / (([(raw.groundedness.getD QualityEvaluator.RawSection.empty).score.getD 0,
                  (raw.accuracy.getD QualityEvaluator.RawSection.empty).score.getD 0,
                  (raw.relevance.getD QualityEvaluator.RawSection.empty).score.getD 0] : List ℚ).length : ℚ)
        else 0) =
      ((raw.groundedness.getD QualityEvaluator.RawSection.empty).score.getD 0
        + (raw.accuracy.getD QualityEvaluator.RawSection.empty).score.getD 0
        + (raw.relevance.getD QualityEvaluator.RawSection.empty).score.getD 0) / 3 := by
    rw [if_pos (by simp)]
    norm_num
    ring
  refine ⟨⟨le_max_left 0 _, max_le (by norm_num) (min_le_left _ _)⟩,
    ⟨le_max_left 0 _, max_le (by norm_num) (min_le_left _ _)⟩,
    ⟨le_max_left 0 _, max_le (by norm_num) (min_le_left _ _)⟩, ?_, ?_⟩
  · rw [havg]
  · rw [havg]
    simp [decide_eq_true_eq, ge_iff_le]

/-- Claim C9 (confirmed): `cosine_similarity` is total and division-safe —
it returns 0 whenever either argument has zero norm (in particular against
any all-zero vector), and equals 1 on any vector with a nonzero component
paired with itself. -/
theorem cosine_similarity_safe (v w : List ℝ) :
    ((EmbeddingService.normList v = 0 ∨ EmbeddingService.normList w = 0) →
      EmbeddingService.cosine_similarity v w = 0) ∧
    (∀ n : Nat, EmbeddingService.cosine_similarity v (List.replicate n 0) = 0) ∧
    ((∃ x ∈ v, x ≠ 0) → EmbeddingService.cosine_similarity v v = 1) := by
  refine ⟨?_, ?_, ?_⟩
  · intro h
    unfold EmbeddingService.cosine_similarity
    rw [if_pos h]
  · intro n
    unfold EmbeddingService.cosine_similarity
    rw [if_pos (Or.inr (EmbeddingService.normList_replicate_zero n))]
  · intro h
    have hd : 0 < EmbeddingService.dotList v v := EmbeddingService.dotList_self_pos h
    have hn : EmbeddingService.normList v ≠ 0 := by
      unfold EmbeddingService.normList
      exact Real.sqrt_ne_zero'.mpr hd
    unfold EmbeddingService.cosine_similarity
    rw [if_neg (by push_neg; exact ⟨hn, hn⟩)]
    unfold EmbeddingService.normList
    rw [Real.mul_self_sqrt hd.le]
    exact div_self hd.ne'

/-- Witness for `cosine_similarity_safe` at the concrete vector `[1]`:
self-similarity 1, similarity 0 against the zero vector. -/
theorem cosine_similarity_safe_witness :
    EmbeddingService.cosine_similarity [(1 : ℝ)] [1] = 1 ∧
    EmbeddingService.cosine_similarity [(1 : ℝ)] (List.replicate 1 0) = 0 :=
  ⟨(cosine_similarity_safe [(1 : ℝ)] [1]).2.2 ⟨1, by simp, one_ne_zero⟩,
   (cosine_similarity_safe [(1 : ℝ)] [1]).2.1 1⟩
